import Mathlib

/-!
# Verification of the AmneziaWG UdpTlsPipeKit / WireGuardKitC interface

The repository ships the C headers `udptlspipe.h` (the UDP-over-TLS pipe
client API) and `WireGuardKitC.h` (the umbrella header fixing the WireGuard
key length).  The implementation behind `udptlspipe.h` is not part of the
source tree; its behaviour is modelled here from the specification
(`spec.md`), faithful to its words, while the constants and declarations
visible in the headers are embedded directly.
-/

namespace UdpTlsPipe

/-! ## Wire framing

Modelled from the spec: wire framing on the TLS stream is
`[4-byte big-endian length][length bytes of UDP payload]`, repeated.
A zero or negative/oversized length field, or a stream EOF mid-frame, is a
protocol violation ending the session.  The "oversized" bound is taken as
the maximum UDP payload size. -/

/-- Modelled from the spec: the protocol's maximum datagram size (the
"oversized" bound of §4.3); the maximum UDP payload. -/
def maxFrameSize : Nat := 65535

/-- Big-endian 4-byte encoding of a natural number (each entry is a byte). -/
def toBE32 (n : Nat) : List Nat :=
  [n / 16777216 % 256, n / 65536 % 256, n / 256 % 256, n % 256]

/-- Big-endian reading of 4 bytes. -/
def fromBE32 (a b c d : Nat) : Nat :=
  ((a * 256 + b) * 256 + c) * 256 + d

/-- Modelled from the spec: frame a UDP datagram for the TLS stream —
a 4-byte big-endian length prefix followed by the payload bytes. -/
def encodeFrame (p : List Nat) : List Nat :=
  toBE32 p.length ++ p

/-- Modelled from the spec: de-frame one datagram from the head of the byte
stream: read the 4-byte big-endian length, reject a zero or oversized
length field, reject a stream that ends mid-frame, otherwise return the
payload and the remaining stream. -/
def decodeFrame : List Nat → Option (List Nat × List Nat)
  | a :: b :: c :: d :: rest =>
    let len := fromBE32 a b c d
    if len = 0 ∨ maxFrameSize < len then none
    else if rest.length < len then none
    else some (rest.take len, rest.drop len)
  | _ => none

/-- Outcome of de-framing an incoming stream: the stream ended cleanly at a
frame boundary, or a protocol violation (bad length field / EOF mid-frame)
was encountered. -/
inductive DeframeStatus
  | cleanEnd
  | violation
deriving DecidableEq, Repr

/-- De-framing worker: one unit of fuel is spent per decoded frame.  Since
every frame consumes at least five bytes of the stream, fuel equal to the
stream length always suffices (`deframeSteps_congr`). -/
def deframeSteps : Nat → List Nat → List (List Nat) × DeframeStatus
  | _, [] => ([], .cleanEnd)
  | 0, _ :: _ => ([], .violation)
  | fuel + 1, a :: t =>
    match decodeFrame (a :: t) with
    | none => ([], .violation)
    | some (d, rest) =>
      let p := deframeSteps fuel rest
      (d :: p.1, p.2)

/-- Modelled from the spec: de-frame an entire incoming byte stream,
reconstituting discrete datagrams until the stream ends.  Ending exactly at
a frame boundary is a clean end; a zero/oversized length field or an EOF
mid-frame is a protocol violation. -/
def deframeAll (s : List Nat) : List (List Nat) × DeframeStatus :=
  deframeSteps s.length s

/-! ## Session lifecycle and process-wide state

The implementation behind `udptlspipe.h` is not in the source tree; the
data model below is modelled from the spec (§3–§6): a process-wide handle
table, a process-wide last-error slot, and a process-wide cache for the
"randomized" fingerprint template. -/

/-- Lifecycle states of a TLS tunnel session (spec §4.3). -/
inductive SessionState
  | created | connecting | handshaking | authenticating | bridging
  | closing | closed | failed
deriving DecidableEq, Repr

/-- Modelled from the spec: a running tunnel session (spec §3 `Session`). -/
structure Session where
  destination : String
  password : Option String
  sniUsed : String
  authEnabled : Bool
  viaProxy : Bool
  secure : Bool
  fingerprintProfile : String
  clientHelloTemplate : List Nat
  localPort : Nat
  state : SessionState
deriving DecidableEq, Repr

/-- Modelled from the spec: the TLS→UDP bridging reaction to one burst of
incoming stream bytes — a de-framing protocol violation transitions the
whole session to `Closing` (spec §4.3). -/
def bridgeStep (sess : Session) (incoming : List Nat) : Session :=
  if (deframeAll incoming).2 = .violation then { sess with state := .closing }
  else sess

/-- Failure classes a start attempt can hit after configuration has been
validated (spec §7 error taxonomy). -/
inductive FailStage
  | connect | tls | auth | bind
deriving DecidableEq, Repr

/-- Modelled from the spec: what the network did for one start attempt —
the session reached `Bridging` with the local UDP socket bound to
`boundPort`, or it failed at some stage with an underlying message. -/
inductive NetOutcome
  | success (boundPort : Nat)
  | failure (stage : FailStage) (msg : String)
deriving DecidableEq, Repr

/-- A physically possible outcome: an OS-bound UDP port is never 0 and
fits in 16 bits. -/
def NetOutcome.wf : NetOutcome → Bool
  | .success p => 0 < p && p ≤ 65535
  | .failure _ _ => true

/-- Modelled from the spec: the process-wide mutable state behind the C
API — handle registry, last-error slot, randomized-fingerprint cache, and
an entropy oracle for randomized template generation. -/
structure PipeState where
  nextHandle : Int
  table : List (Int × Session)
  lastError : Option String
  randomizedCache : Option (List Nat)
  entropy : Nat → List Nat
  entropyIdx : Nat

/-- The state at library initialization, for a given entropy oracle. -/
def initState (e : Nat → List Nat) : PipeState :=
  { nextHandle := 1, table := [], lastError := none,
    randomizedCache := none, entropy := e, entropyIdx := 0 }

/-- A well-formed process state: handles are allocated starting from 1, so
the next handle is positive. -/
def PipeState.WF (st : PipeState) : Prop := 1 ≤ st.nextHandle

instance (st : PipeState) : Decidable st.WF := by
  unfold PipeState.WF
  infer_instance

/-- The closed set of recognized fingerprint profile names
(`udptlspipe.h` line 29). -/
def recognizedProfiles : List String :=
  ["chrome", "firefox", "safari", "edge", "okhttp", "ios", "randomized"]

/-- Modelled from the spec: the fixed catalog's deterministic ClientHello
template for a named (non-randomized) profile. -/
def catalogTemplate (profile : String) : List Nat :=
  profile.data.map Char.toNat

/-- Modelled from the spec: the "randomized" profile lazily generates a
template on first use and caches it process-wide; subsequent uses return
the cached template until `ResetFingerprint` clears it (spec §4.1). -/
def getRandomizedTemplate (st : PipeState) : List Nat × PipeState :=
  match st.randomizedCache with
  | some t => (t, st)
  | none =>
    let t := st.entropy st.entropyIdx
    (t, { st with randomizedCache := some t, entropyIdx := st.entropyIdx + 1 })

/-- `udptlspipeResetFingerprint`: clears the cached randomized fingerprint
template. -/
def udptlspipeResetFingerprint (st : PipeState) : PipeState :=
  { st with randomizedCache := none }

/-- Modelled from the spec: resolve a recognized profile name to a
ClientHello template (spec §4.1). -/
def resolveTemplate (profile : String) (st : PipeState) : List Nat × PipeState :=
  if profile = "randomized" then getRandomizedTemplate st
  else (catalogTemplate profile, st)

/-! ## Destination parsing and the C entry points -/

/-- Split a character list at every colon. -/
def splitOnColon : List Char → List (List Char)
  | [] => [[]]
  | c :: cs =>
    let r := splitOnColon cs
    if c = ':' then [] :: r
    else
      match r with
      | [] => [[c]]
      | h :: t => (c :: h) :: t

/-- Parse a non-empty all-digit character list as a decimal number. -/
def digitsToNat : List Char → Option Nat
  | [] => none
  | cs =>
    if cs.all Char.isDigit then
      some (cs.foldl (fun acc c => acc * 10 + (c.toNat - 48)) 0)
    else none

/-- Modelled from the spec: a destination is `host:port`
(`udptlspipe.h`: remote server address, e.g. "server.example.com:443") —
a non-empty host, one colon, and a valid UDP/TCP port number. -/
def parseDestination (s : String) : Option (String × Nat) :=
  match splitOnColon s.data with
  | [host, portCs] =>
    match digitsToNat portCs with
    | some p =>
      if host ≠ [] ∧ p ≠ 0 ∧ p ≤ 65535 then some (⟨host⟩, p) else none
    | none => none
  | _ => none

/-- Modelled from the spec: the negative code for a synchronously rejected
configuration error (bad destination, unknown fingerprint profile). -/
def configErrCode : Int := -1

/-- Modelled from the spec: the negative code identifying the failure
class of a start attempt that failed after configuration validation. -/
def errCode : FailStage → Int
  | .connect => -2
  | .tls => -3
  | .auth => -4
  | .bind => -5

/-- Human-readable description of a failure stage, used in the recorded
last-error message. -/
def stageMsg : FailStage → String
  | .connect => "connection failed"
  | .tls => "TLS handshake failed"
  | .auth => "authentication failed"
  | .bind => "UDP bind failed"

/-- Record a failure message in the process-wide last-error slot. -/
def setError (st : PipeState) (m : String) : PipeState :=
  { st with lastError := some m }

/-- Whether the optional password enables the authentication step:
`udptlspipe.h` documents that a NULL or empty password is accepted
(authentication is skipped). -/
def authFromPassword : Option String → Bool
  | none => false
  | some "" => false
  | some _ => true

/-- Whether the optional proxy URL routes the connection through a proxy:
`udptlspipe.h` documents that a NULL or empty proxy means direct. -/
def proxyFromArg : Option String → Bool
  | none => false
  | some "" => false
  | some _ => true

/-- The TLS SNI actually used: `udptlspipe.h` documents that a NULL
`tls_server_name` defaults to the destination host. -/
def sniFromArg (tlsServerName : Option String) (host : String) : String :=
  match tlsServerName with
  | none => host
  | some s => s

/-- The session record a successful start attempt registers: it has
reached `Bridging`, carries the resolved ClientHello template, and applies
the documented defaults for the optional arguments. -/
def startSession (destination : String) (password tlsServerName : Option String)
    (secure : Bool) (proxy : Option String) (fingerprintProfile : String)
    (host : String) (tmpl : List Nat) (actualPort : Nat) : Session :=
  { destination := destination
    password := password
    sniUsed := sniFromArg tlsServerName host
    authEnabled := authFromPassword password
    viaProxy := proxyFromArg proxy
    secure := secure
    fingerprintProfile := fingerprintProfile
    clientHelloTemplate := tmpl
    localPort := actualPort
    state := .bridging }

/-- Modelled from the spec: `udptlspipeStart`.  Validates the destination
format and the fingerprint profile synchronously; resolves the ClientHello
template; then, depending on the network outcome, either registers the new
session (which has reached `Bridging`) under the next unused positive
handle and returns that handle, or records a non-empty last-error message
and returns the failure class's negative code (spec §4.4, §6, §7). -/
def udptlspipeStart (destination : String) (password : Option String)
    (tlsServerName : Option String) (secure : Bool) (proxy : Option String)
    (fingerprintProfile : String) (listenPort : Nat)
    (outcome : NetOutcome) (st : PipeState) : Int × PipeState :=
  match parseDestination destination with
  | none =>
    (configErrCode, setError st ("udptlspipe: invalid destination: " ++ destination))
  | some (host, _dport) =>
    if fingerprintProfile ∈ recognizedProfiles then
      let r := resolveTemplate fingerprintProfile st
      match outcome with
      | .success boundPort =>
        let actualPort := if listenPort ≠ 0 then listenPort else boundPort
        let h := r.2.nextHandle
        let sess := startSession destination password tlsServerName secure proxy
          fingerprintProfile host r.1 actualPort
        (h, { r.2 with table := (h, sess) :: r.2.table, nextHandle := h + 1 })
      | .failure stage msg =>
        (errCode stage, setError r.2 ("udptlspipe: " ++ stageMsg stage ++ ": " ++ msg))
    else
      (configErrCode,
       setError st ("udptlspipe: unknown fingerprint profile: " ++ fingerprintProfile))

/-- Modelled from the spec: `udptlspipeStop` — tears the session down and
removes its entry from the handle registry; stopping an unknown or
already-stopped handle is a no-op (spec §4.4). -/
def udptlspipeStop (h : Int) (st : PipeState) : PipeState :=
  { st with table := st.table.filter (fun e => !(e.1 == h)) }

/-- Modelled from the spec: `udptlspipeGetLocalPort` — the bound local UDP
port for a live handle, or 0 for an unknown/torn-down handle
(`udptlspipe.h` lines 48–54). -/
def udptlspipeGetLocalPort (h : Int) (st : PipeState) : Nat :=
  match st.table.find? (fun e => e.1 == h) with
  | some e => e.2.localPort
  | none => 0

/-- Modelled from the spec: `udptlspipeGetLastError` — returns the
last-error message (NULL when the slot is clear); reading has no side
effect, which the model shows by also returning the unchanged state. -/
def udptlspipeGetLastError (st : PipeState) : Option String × PipeState :=
  (st.lastError, st)

/-- Modelled from the spec: `udptlspipeClearLastError` — resets the
last-error slot to "none". -/
def udptlspipeClearLastError (st : PipeState) : PipeState :=
  { st with lastError := none }

/-- A concrete bridging session, used to evaluate the theorems below on
explicit inputs. -/
def sampleSession : Session :=
  { destination := "server.example.com:443"
    password := none
    sniUsed := "server.example.com"
    authEnabled := false
    viaProxy := false
    secure := true
    fingerprintProfile := "chrome"
    clientHelloTemplate := catalogTemplate "chrome"
    localPort := 51000
    state := .bridging }

/-- A concrete entropy oracle, used to evaluate the theorems below on
explicit inputs. -/
def sampleEntropy : Nat → List Nat := fun i => [i % 256, 3, 1]

end UdpTlsPipe

namespace WireGuardKitC

/-- Modelled from the spec: `WG_KEY_LEN` is declared in `key.h` (not part of
the source tree); the umbrella header `WireGuardKitC.h` pins its value with
`_Static_assert(WG_KEY_LEN == 32, "WG_KEY_LEN must be 32")`, so in any
compiling translation unit it is 32. -/
def WG_KEY_LEN : Nat := 32

/-- Embedding of the compile-time check in `WireGuardKitC.h` line 12:
`_Static_assert(WG_KEY_LEN == 32, "WG_KEY_LEN must be 32")`. -/
def wgKeyLenStaticAssert : Bool := WG_KEY_LEN == 32

end WireGuardKitC

namespace UdpTlsPipe

/-! ## Properties of the wire framing -/

theorem decodeFrame_length_lt {s d r : List Nat}
    (h : decodeFrame s = some (d, r)) : r.length < s.length := by
  match s with
  | [] => simp [decodeFrame] at h
  | [_] => simp [decodeFrame] at h
  | [_, _] => simp [decodeFrame] at h
  | [_, _, _] => simp [decodeFrame] at h
  | a :: b :: c :: e :: rest =>
    simp only [decodeFrame] at h
    split at h
    · exact absurd h (by simp)
    · split at h
      · exact absurd h (by simp)
      · simp only [Option.some.injEq, Prod.mk.injEq] at h
        have := h.2
        subst this
        simp only [List.length_cons, List.length_drop]
        omega

theorem deframeSteps_congr : ∀ (f1 f2 : Nat) (s : List Nat),
    s.length ≤ f1 → s.length ≤ f2 → deframeSteps f1 s = deframeSteps f2 s := by
  intro f1
  induction f1 with
  | zero =>
    intro f2 s h1 _
    match s with
    | [] =>
      match f2 with
      | 0 => rfl
      | g + 1 => rfl
    | _ :: _ => simp at h1
  | succ g1 ih =>
    intro f2 s h1 h2
    match s with
    | [] =>
      match f2 with
      | 0 => rfl
      | g + 1 => rfl
    | a :: t =>
      match f2 with
      | 0 => simp at h2
      | g2 + 1 =>
        simp only [deframeSteps]
        match hdec : decodeFrame (a :: t) with
        | none => rfl
        | some (d, rest) =>
          have hlt := decodeFrame_length_lt hdec
          simp only [List.length_cons] at h1 h2 hlt
          dsimp only
          rw [ih g2 rest (by omega) (by omega)]

theorem fromBE32_toBE32 (n : Nat) (h : n < 4294967296) :
    fromBE32 (n / 16777216 % 256) (n / 65536 % 256) (n / 256 % 256) (n % 256) = n := by
  unfold fromBE32
  omega

theorem decodeFrame_encodeFrame (p rest : List Nat)
    (hp : p ≠ []) (hlen : p.length ≤ maxFrameSize) :
    decodeFrame (encodeFrame p ++ rest) = some (p, rest) := by
  have hcons : encodeFrame p ++ rest =
      p.length / 16777216 % 256 :: p.length / 65536 % 256 ::
      p.length / 256 % 256 :: p.length % 256 :: (p ++ rest) := by
    simp [encodeFrame, toBE32]
  rw [hcons]
  simp only [decodeFrame]
  rw [fromBE32_toBE32 p.length (by unfold maxFrameSize at hlen; omega)]
  have hne : p.length ≠ 0 := by
    intro h0
    exact hp (List.eq_nil_of_length_eq_zero h0)
  rw [if_neg (by omega), if_neg (by simp only [List.length_append]; omega)]
  rw [List.take_left, List.drop_left]

theorem deframeAll_nil : deframeAll [] = ([], .cleanEnd) := rfl

theorem deframeAll_decode_none {s : List Nat} (hne : s ≠ [])
    (h : decodeFrame s = none) : deframeAll s = ([], .violation) := by
  match s with
  | [] => exact absurd rfl hne
  | a :: t =>
    simp only [deframeAll, List.length_cons, deframeSteps]
    rw [h]

theorem deframeAll_decode_some {s d r : List Nat}
    (h : decodeFrame s = some (d, r)) :
    deframeAll s = (d :: (deframeAll r).1, (deframeAll r).2) := by
  match s with
  | [] => simp [decodeFrame] at h
  | a :: t =>
    have hlt := decodeFrame_length_lt h
    simp only [List.length_cons] at hlt
    simp only [deframeAll, List.length_cons, deframeSteps]
    rw [h]
    dsimp only
    rw [deframeSteps_congr t.length r.length r (by omega) (le_refl _)]

theorem deframeAll_flatten (frames : List (List Nat))
    (h : ∀ q ∈ frames, q ≠ [] ∧ q.length ≤ maxFrameSize) :
    deframeAll ((frames.map encodeFrame).flatten) = (frames, .cleanEnd) := by
  induction frames with
  | nil => simpa using deframeAll_nil
  | cons f fs ih =>
    have hf := h f (by simp)
    have hdec : decodeFrame (encodeFrame f ++ (fs.map encodeFrame).flatten) =
        some (f, (fs.map encodeFrame).flatten) :=
      decodeFrame_encodeFrame f _ hf.1 hf.2
    have hrest : deframeAll ((fs.map encodeFrame).flatten) = (fs, .cleanEnd) :=
      ih (fun q hq => h q (by simp [hq]))
    simp only [List.map_cons, List.flatten_cons]
    rw [deframeAll_decode_some hdec, hrest]

theorem decodeFrame_recompose {s d r : List Nat} (hb : ∀ b ∈ s, b < 256)
    (h : decodeFrame s = some (d, r)) :
    s = encodeFrame d ++ r ∧ ∀ b ∈ r, b < 256 := by
  match s with
  | [] => simp [decodeFrame] at h
  | [_] => simp [decodeFrame] at h
  | [_, _] => simp [decodeFrame] at h
  | [_, _, _] => simp [decodeFrame] at h
  | a :: b :: c :: e :: rest =>
    simp only [decodeFrame] at h
    split at h
    · exact absurd h (by simp)
    · split at h
      · exact absurd h (by simp)
      · rename_i hlen hroom
        simp only [Option.some.injEq, Prod.mk.injEq] at h
        have ha : a < 256 := hb a (by simp)
        have hbb : b < 256 := hb b (by simp)
        have hc : c < 256 := hb c (by simp)
        have he : e < 256 := hb e (by simp)
        have hd : d = rest.take (fromBE32 a b c e) := h.1.symm
        have hr : r = rest.drop (fromBE32 a b c e) := h.2.symm
        have hdlen : d.length = fromBE32 a b c e := by
          rw [hd, List.length_take]
          omega
        constructor
        · have htb : toBE32 (fromBE32 a b c e) = [a, b, c, e] := by
            simp only [toBE32, fromBE32]
            have h1 : (((a * 256 + b) * 256 + c) * 256 + e) / 16777216 % 256 = a := by omega
            have h2 : (((a * 256 + b) * 256 + c) * 256 + e) / 65536 % 256 = b := by omega
            have h3 : (((a * 256 + b) * 256 + c) * 256 + e) / 256 % 256 = c := by omega
            have h4 : (((a * 256 + b) * 256 + c) * 256 + e) % 256 = e := by omega
            rw [h1, h2, h3, h4]
          have hjoin : d ++ r = rest := by
            rw [hd, hr]
            exact List.take_append_drop _ rest
          rw [encodeFrame, hdlen, htb, List.append_assoc]
          simp only [List.cons_append, List.nil_append]
          rw [hjoin]
        · intro x hx
          exact hb x (by
            rw [hr] at hx
            have := List.mem_of_mem_drop hx
            simp [this])

theorem deframeAll_prefix (s : List Nat) (hb : ∀ b ∈ s, b < 256) :
    ∃ r, s = (((deframeAll s).1).map encodeFrame).flatten ++ r := by
  match hdec : decodeFrame s with
  | none =>
    match s with
    | [] => exact ⟨[], by simp [deframeAll_nil]⟩
    | a :: t =>
      rw [deframeAll_decode_none (by simp) hdec]
      exact ⟨a :: t, by simp⟩
  | some (d, r) =>
    have hre := decodeFrame_recompose hb hdec
    obtain ⟨rr, hrr⟩ := deframeAll_prefix r hre.2
    rw [deframeAll_decode_some hdec]
    refine ⟨rr, ?_⟩
    simp only [List.map_cons, List.flatten_cons, List.append_assoc]
    rw [hre.1]
    conv_lhs => rw [hrr]
termination_by s.length
decreasing_by exact decodeFrame_length_lt hdec

end UdpTlsPipe

namespace UdpTlsPipe

/-! ## Claim theorems: framing -/

/-- **C2 (amended).** Framing and de-framing on the TLS stream are mutually
inverse for every *non-empty* UDP datagram payload within the protocol's
maximum size: encoding the datagram as a 4-byte big-endian length prefix
followed by exactly that many payload bytes and then decoding by reading
the prefix and exactly that many bytes yields the original datagram
byte-identical and with the same length, preserving any following stream
bytes; and concatenating frames this way loses no datagram boundaries —
the concatenation de-frames to exactly the original datagram sequence.
(The empty datagram must be excluded: the de-framer treats a zero length
field as a protocol violation.) -/
theorem framing_roundtrip_concat (p rest : List Nat) (frames : List (List Nat))
    (hp : p ≠ []) (hlen : p.length ≤ maxFrameSize)
    (hf : ∀ q ∈ frames, q ≠ [] ∧ q.length ≤ maxFrameSize) :
    decodeFrame (encodeFrame p ++ rest) = some (p, rest) ∧
    deframeAll ((frames.map encodeFrame).flatten) = (frames, .cleanEnd) :=
  ⟨decodeFrame_encodeFrame p rest hp hlen, deframeAll_flatten frames hf⟩

/-- **C2, witness.** The round trip and boundary preservation evaluated on
concrete datagrams. -/
theorem framing_roundtrip_concat_witness :
    decodeFrame (encodeFrame [7, 8] ++ [1]) = some ([7, 8], [1]) ∧
    deframeAll (([[7], [8, 9]].map encodeFrame).flatten) = ([[7], [8, 9]], .cleanEnd) :=
  ⟨(framing_roundtrip_concat [7, 8] [1] [[7], [8, 9]]
      (by decide) (by decide) (by decide)).1,
   (framing_roundtrip_concat [7, 8] [1] [[7], [8, 9]]
      (by decide) (by decide) (by decide)).2⟩

/-- **C2, counterexample.** The claim as stated quantifies over *every*
payload within the protocol's maximum size, which includes the empty
datagram; but the spec's de-framer treats the resulting zero length field
as a protocol violation, so decoding the encoding of the empty datagram
does not return the datagram — the round trip fails at size 0. -/
theorem framing_roundtrip_empty_counterexample :
    ([] : List Nat).length ≤ maxFrameSize ∧
    decodeFrame (encodeFrame ([] : List Nat) ++ []) = none := by decide

/-- **C3.** For every incoming TLS byte stream: if the de-framer encounters
a zero or oversized length field, or the stream ends mid-frame (all of
which surface as `DeframeStatus.violation`), the bridging step tears the
session down (state becomes `Closing`); and de-framing never reads out of
the bounds of the received data — every decoded datagram comes from inside
the stream, whose consumed part is exactly the re-encoding of the decoded
datagrams.  (De-framing is a total function, so it cannot hang.) -/
theorem deframe_violation_closes_session (sess : Session) (s : List Nat) :
    ((deframeAll s).2 = .violation → (bridgeStep sess s).state = .closing) ∧
    ((∀ b ∈ s, b < 256) →
      ∃ r, s = (((deframeAll s).1).map encodeFrame).flatten ++ r) := by
  constructor
  · intro hv
    simp [bridgeStep, hv]
  · exact deframeAll_prefix s

/-- **C3, witness.** A stream whose length field announces 5 bytes but ends
after 1 is torn down, and its decoded prefix stays in bounds. -/
theorem deframe_violation_closes_session_witness :
    (bridgeStep sampleSession [0, 0, 0, 5, 1]).state = .closing ∧
    ∃ r, [0, 0, 0, 5, 1] =
      (((deframeAll [0, 0, 0, 5, 1]).1).map encodeFrame).flatten ++ r :=
  ⟨(deframe_violation_closes_session sampleSession [0, 0, 0, 5, 1]).1 (by decide),
   (deframe_violation_closes_session sampleSession [0, 0, 0, 5, 1]).2 (by decide)⟩

end UdpTlsPipe

namespace WireGuardKitC

/-- **C10.** The constant `WG_KEY_LEN` equals 32, and the umbrella header's
compile-time check `_Static_assert(WG_KEY_LEN == 32, ...)` holds, so every
translation unit including `WireGuardKitC.h` is guaranteed a 32-byte key
length. -/
theorem wg_key_len_is_32 : WG_KEY_LEN = 32 ∧ wgKeyLenStaticAssert = true := by
  decide

end WireGuardKitC

namespace UdpTlsPipe

/-! ## Claim theorems: handle registry and error slot -/

/-- **C4.** `udptlspipeStop` is idempotent and total: it is a total Lean
function (every integer handle argument is accepted, so it cannot crash or
raise), stopping the same handle twice leaves exactly the state of stopping
it once, and stopping a handle that resolves to no live session leaves all
state unchanged. -/
theorem stop_idempotent_total (h : Int) (st : PipeState) :
    udptlspipeStop h (udptlspipeStop h st) = udptlspipeStop h st ∧
    ((∀ e ∈ st.table, e.1 ≠ h) → udptlspipeStop h st = st) := by
  constructor
  · simp only [udptlspipeStop]
    rw [List.filter_filter]
    simp
  · intro hnone
    simp only [udptlspipeStop]
    have : st.table.filter (fun e => !(e.1 == h)) = st.table := by
      apply List.filter_eq_self.mpr
      intro e he
      simp [hnone e he]
    rw [this]

/-- **C4, witness.** Stopping a never-issued handle on the initial state is
a no-op, and doing it twice equals doing it once. -/
theorem stop_idempotent_total_witness :
    udptlspipeStop 5 (udptlspipeStop 5 (initState sampleEntropy)) =
      udptlspipeStop 5 (initState sampleEntropy) ∧
    udptlspipeStop 5 (initState sampleEntropy) = initState sampleEntropy :=
  ⟨(stop_idempotent_total 5 (initState sampleEntropy)).1,
   (stop_idempotent_total 5 (initState sampleEntropy)).2
     (by simp [initState])⟩

/-- **C6.** `udptlspipeGetLocalPort` returns the bound local UDP port when
the handle resolves to a live session in the registry, returns 0 when the
handle is unknown, and returns 0 after the session has been torn down by
`udptlspipeStop`; it is a pure total function (never blocks, never raises). -/
theorem getLocalPort_spec (h : Int) (st : PipeState) :
    (∀ e, st.table.find? (fun e => e.1 == h) = some e →
      udptlspipeGetLocalPort h st = e.2.localPort) ∧
    (st.table.find? (fun e => e.1 == h) = none →
      udptlspipeGetLocalPort h st = 0) ∧
    udptlspipeGetLocalPort h (udptlspipeStop h st) = 0 := by
  refine ⟨?_, ?_, ?_⟩
  · intro e he
    simp [udptlspipeGetLocalPort, he]
  · intro hn
    simp [udptlspipeGetLocalPort, hn]
  · have hn : (udptlspipeStop h st).table.find? (fun e => e.1 == h) = none := by
      apply List.find?_eq_none.mpr
      intro x hx
      simp only [udptlspipeStop, List.mem_filter] at hx
      have := hx.2
      simp only [Bool.not_eq_eq_eq_not, Bool.not_true] at this
      simp [this]
    simp [udptlspipeGetLocalPort, hn]

/-- **C6, witness.** On a registry holding the sample session under handle
2: the port of handle 2 is its bound port, an unknown handle yields 0, and
after stopping handle 2 the lookup yields 0. -/
theorem getLocalPort_spec_witness :
    udptlspipeGetLocalPort 2
      { initState sampleEntropy with table := [(2, sampleSession)] } =
      sampleSession.localPort ∧
    udptlspipeGetLocalPort 7
      { initState sampleEntropy with table := [(2, sampleSession)] } = 0 ∧
    udptlspipeGetLocalPort 2
      (udptlspipeStop 2
        { initState sampleEntropy with table := [(2, sampleSession)] }) = 0 :=
  ⟨(getLocalPort_spec 2 _).1 (2, sampleSession) (by rfl),
   (getLocalPort_spec 7 _).2.1 (by rfl),
   (getLocalPort_spec 2 _).2.2⟩

/-- **C8.** `udptlspipeClearLastError` is idempotent — after one or more
consecutive calls the error slot is in the same "none" state — and
`udptlspipeGetLastError` is side-effect-free: read while the slot is clear
it returns the "no error" signal (`none`, the model of NULL) and leaves the
state unchanged. -/
theorem clear_error_idempotent_get_pure (st : PipeState) :
    udptlspipeClearLastError (udptlspipeClearLastError st) =
      udptlspipeClearLastError st ∧
    (udptlspipeClearLastError st).lastError = none ∧
    (udptlspipeGetLastError (udptlspipeClearLastError st)).1 = none ∧
    (udptlspipeGetLastError st).2 = st :=
  ⟨rfl, rfl, rfl, rfl⟩

end UdpTlsPipe

namespace UdpTlsPipe

/-! ## Properties of start, the fingerprint cache and error messages -/

theorem resolveTemplate_state (p : String) (st : PipeState) :
    (resolveTemplate p st).2.nextHandle = st.nextHandle ∧
    (resolveTemplate p st).2.table = st.table ∧
    (resolveTemplate p st).2.lastError = st.lastError := by
  unfold resolveTemplate getRandomizedTemplate
  split
  · cases hc : st.randomizedCache <;> simp [hc]
  · simp

theorem resolve_randomized_cache (st : PipeState) :
    (resolveTemplate "randomized" st).2.randomizedCache =
      some ((resolveTemplate "randomized" st).1) := by
  unfold resolveTemplate getRandomizedTemplate
  simp only [if_pos rfl]
  cases hc : st.randomizedCache <;> simp [hc]

theorem resolve_cached {st : PipeState} {t : List Nat}
    (h : st.randomizedCache = some t) :
    resolveTemplate "randomized" st = (t, st) := by
  unfold resolveTemplate getRandomizedTemplate
  simp [h]

theorem resolve_after_reset (st : PipeState) :
    (resolveTemplate "randomized" (udptlspipeResetFingerprint st)).1 =
      st.entropy st.entropyIdx := by
  unfold resolveTemplate getRandomizedTemplate udptlspipeResetFingerprint
  simp

theorem start_success_eq (destination : String) (password tlsServerName : Option String)
    (secure : Bool) (proxy : Option String) (profile : String)
    (listenPort boundPort : Nat) (st : PipeState) (host : String) (dport : Nat)
    (hd : parseDestination destination = some (host, dport))
    (hprof : profile ∈ recognizedProfiles) :
    udptlspipeStart destination password tlsServerName secure proxy profile
        listenPort (.success boundPort) st =
      ((resolveTemplate profile st).2.nextHandle,
       { (resolveTemplate profile st).2 with
         table := ((resolveTemplate profile st).2.nextHandle,
           startSession destination password tlsServerName secure proxy profile
             host ((resolveTemplate profile st).1)
             (if listenPort ≠ 0 then listenPort else boundPort)) ::
           (resolveTemplate profile st).2.table,
         nextHandle := (resolveTemplate profile st).2.nextHandle + 1 }) := by
  unfold udptlspipeStart
  rw [hd]
  dsimp only
  rw [if_pos hprof]

theorem start_failure_eq (destination : String) (password tlsServerName : Option String)
    (secure : Bool) (proxy : Option String) (profile : String)
    (listenPort : Nat) (stage : FailStage) (msg : String) (st : PipeState)
    (host : String) (dport : Nat)
    (hd : parseDestination destination = some (host, dport))
    (hprof : profile ∈ recognizedProfiles) :
    udptlspipeStart destination password tlsServerName secure proxy profile
        listenPort (.failure stage msg) st =
      (errCode stage,
       setError (resolveTemplate profile st).2
         ("udptlspipe: " ++ stageMsg stage ++ ": " ++ msg)) := by
  unfold udptlspipeStart
  rw [hd]
  dsimp only
  rw [if_pos hprof]

theorem ne_empty_of_length_pos {s : String} (h : 0 < s.length) : s ≠ "" := by
  intro he
  rw [he] at h
  simp at h

theorem start_errmsg_ne_empty (stage : FailStage) (msg : String) :
    ("udptlspipe: " ++ stageMsg stage ++ ": " ++ msg) ≠ "" := by
  apply ne_empty_of_length_pos
  have h1 : (String.length "udptlspipe: ") = 12 := rfl
  simp only [String.length_append]
  omega

theorem find?_cons_self (hh : Int) (sess : Session) (t : List (Int × Session)) :
    ((hh, sess) :: t).find? (fun e => e.1 == hh) = some (hh, sess) :=
  List.find?_cons_of_pos _ (by simp)

end UdpTlsPipe

namespace UdpTlsPipe

/-! ## Claim theorems: start, fingerprint cache, configuration errors -/

/-- **C1.** For every call to `udptlspipeStart` with a valid
(destination, fingerprint profile) pair — whatever the network outcome —
the call either returns a positive handle for which
`udptlspipeGetLocalPort` returns a non-zero port, or it returns a negative
error code and the last-error slot holds a non-empty message. -/
theorem start_dichotomy (destination : String) (password tlsServerName : Option String)
    (secure : Bool) (proxy : Option String) (profile : String) (listenPort : Nat)
    (outcome : NetOutcome) (st : PipeState) (host : String) (dport : Nat)
    (hd : parseDestination destination = some (host, dport))
    (hprof : profile ∈ recognizedProfiles)
    (hout : outcome.wf = true) (hwf : st.WF) :
    (0 < (udptlspipeStart destination password tlsServerName secure proxy profile
        listenPort outcome st).1 ∧
      udptlspipeGetLocalPort
        (udptlspipeStart destination password tlsServerName secure proxy profile
          listenPort outcome st).1
        (udptlspipeStart destination password tlsServerName secure proxy profile
          listenPort outcome st).2 ≠ 0) ∨
    ((udptlspipeStart destination password tlsServerName secure proxy profile
        listenPort outcome st).1 < 0 ∧
      ∃ m, (udptlspipeStart destination password tlsServerName secure proxy profile
        listenPort outcome st).2.lastError = some m ∧ m ≠ "") := by
  cases outcome with
  | success bp =>
    left
    rw [start_success_eq destination password tlsServerName secure proxy profile
      listenPort bp st host dport hd hprof]
    constructor
    · show 0 < (resolveTemplate profile st).2.nextHandle
      rw [(resolveTemplate_state profile st).1]
      unfold PipeState.WF at hwf
      omega
    · show udptlspipeGetLocalPort (resolveTemplate profile st).2.nextHandle _ ≠ 0
      unfold udptlspipeGetLocalPort
      dsimp only
      rw [find?_cons_self]
      dsimp only [startSession]
      unfold NetOutcome.wf at hout
      simp only [Bool.and_eq_true, decide_eq_true_eq] at hout
      by_cases hlp : listenPort = 0
      · simp [hlp]
        omega
      · simp [hlp]
  | failure stage msg =>
    right
    rw [start_failure_eq destination password tlsServerName secure proxy profile
      listenPort stage msg st host dport hd hprof]
    refine ⟨?_, "udptlspipe: " ++ stageMsg stage ++ ": " ++ msg, rfl,
      start_errmsg_ne_empty stage msg⟩
    cases stage <;> simp [errCode]

/-- **C1, witness.** A valid start on the initial state with a successful
network outcome returns a handle whose local port is non-zero (the left
disjunct holds here). -/
theorem start_dichotomy_witness :
    (0 < (udptlspipeStart "server.example.com:443" none none true none "chrome" 0
        (.success 51000) (initState sampleEntropy)).1 ∧
      udptlspipeGetLocalPort
        (udptlspipeStart "server.example.com:443" none none true none "chrome" 0
          (.success 51000) (initState sampleEntropy)).1
        (udptlspipeStart "server.example.com:443" none none true none "chrome" 0
          (.success 51000) (initState sampleEntropy)).2 ≠ 0) ∨
    ((udptlspipeStart "server.example.com:443" none none true none "chrome" 0
        (.success 51000) (initState sampleEntropy)).1 < 0 ∧
      ∃ m, (udptlspipeStart "server.example.com:443" none none true none "chrome" 0
        (.success 51000) (initState sampleEntropy)).2.lastError = some m ∧ m ≠ "") :=
  start_dichotomy "server.example.com:443" none none true none "chrome" 0
    (.success 51000) (initState sampleEntropy) "server.example.com" 443
    (by decide) (by decide) (by decide) (by decide)

/-- **C7.** The recognized fingerprint profile names form the closed
enumerated set {chrome, firefox, safari, edge, okhttp, ios, randomized};
for every profile name outside this set, `udptlspipeStart` fails
synchronously with a negative configuration code, registering no handle
and creating no session: the handle table, the next-handle counter and the
fingerprint cache are untouched. -/
theorem unknown_profile_config_error (destination : String)
    (password tlsServerName : Option String) (secure : Bool)
    (proxy : Option String) (profile : String) (listenPort : Nat)
    (outcome : NetOutcome) (st : PipeState)
    (hprof : profile ∉ recognizedProfiles) :
    recognizedProfiles =
      ["chrome", "firefox", "safari", "edge", "okhttp", "ios", "randomized"] ∧
    (udptlspipeStart destination password tlsServerName secure proxy profile
        listenPort outcome st).1 < 0 ∧
    (udptlspipeStart destination password tlsServerName secure proxy profile
        listenPort outcome st).2.table = st.table ∧
    (udptlspipeStart destination password tlsServerName secure proxy profile
        listenPort outcome st).2.nextHandle = st.nextHandle ∧
    (udptlspipeStart destination password tlsServerName secure proxy profile
        listenPort outcome st).2.randomizedCache = st.randomizedCache := by
  refine ⟨rfl, ?_⟩
  unfold udptlspipeStart
  cases hdp : parseDestination destination with
  | none =>
    exact ⟨(by decide : configErrCode < 0), rfl, rfl, rfl⟩
  | some hp =>
    dsimp only
    rw [if_neg hprof]
    exact ⟨(by decide : configErrCode < 0), rfl, rfl, rfl⟩

/-- **C7, witness.** The unrecognized profile name "netscape" is rejected
with a negative code and does not disturb the registry. -/
theorem unknown_profile_config_error_witness :
    ("netscape" ∉ recognizedProfiles) ∧
    (udptlspipeStart "server.example.com:443" none none false none "netscape" 0
        (.success 51000) (initState sampleEntropy)).1 < 0 ∧
    (udptlspipeStart "server.example.com:443" none none false none "netscape" 0
        (.success 51000) (initState sampleEntropy)).2.table =
      (initState sampleEntropy).table :=
  ⟨by decide,
   (unknown_profile_config_error "server.example.com:443" none none false none
     "netscape" 0 (.success 51000) (initState sampleEntropy) (by decide)).2.1,
   (unknown_profile_config_error "server.example.com:443" none none false none
     "netscape" 0 (.success 51000) (initState sampleEntropy) (by decide)).2.2.1⟩

end UdpTlsPipe

namespace UdpTlsPipe

/-- **C9.** `udptlspipeStart` accepts NULL for its password,
tls_server_name and proxy arguments without failing on that account: the
call succeeds (given a successful network outcome), and the registered
session has authentication skipped (`authEnabled = false` — also for the
documented empty password), TLS SNI defaulted to the destination host, and
a direct connection (`viaProxy = false` — also for the documented empty
proxy). -/
theorem null_optional_args (destination : String) (secure : Bool)
    (profile : String) (listenPort boundPort : Nat) (st : PipeState)
    (host : String) (dport : Nat)
    (hd : parseDestination destination = some (host, dport))
    (hprof : profile ∈ recognizedProfiles) (hwf : st.WF) :
    0 < (udptlspipeStart destination none none secure none profile listenPort
        (.success boundPort) st).1 ∧
    (∃ sess,
      (udptlspipeStart destination none none secure none profile listenPort
          (.success boundPort) st).2.table =
        ((udptlspipeStart destination none none secure none profile listenPort
            (.success boundPort) st).1, sess) :: st.table ∧
      sess.authEnabled = false ∧ sess.sniUsed = host ∧ sess.viaProxy = false) ∧
    authFromPassword (some "") = false ∧ proxyFromArg (some "") = false := by
  rw [start_success_eq destination none none secure none profile listenPort
    boundPort st host dport hd hprof]
  refine ⟨?_,
    ⟨startSession destination none none secure none profile host
        ((resolveTemplate profile st).1)
        (if listenPort ≠ 0 then listenPort else boundPort), ?_, rfl, rfl, rfl⟩,
    rfl, rfl⟩
  · show 0 < (resolveTemplate profile st).2.nextHandle
    rw [(resolveTemplate_state profile st).1]
    unfold PipeState.WF at hwf
    omega
  · dsimp only
    rw [(resolveTemplate_state profile st).2.1]

/-- **C9, witness.** A start with NULL password, SNI and proxy on the
initial state: it succeeds, authentication is skipped, the SNI is the
destination host, and the connection is direct. -/
theorem null_optional_args_witness :
    0 < (udptlspipeStart "server.example.com:443" none none true none "chrome" 0
        (.success 51000) (initState sampleEntropy)).1 ∧
    (∃ sess,
      (udptlspipeStart "server.example.com:443" none none true none "chrome" 0
          (.success 51000) (initState sampleEntropy)).2.table =
        ((udptlspipeStart "server.example.com:443" none none true none "chrome" 0
            (.success 51000) (initState sampleEntropy)).1, sess) ::
          (initState sampleEntropy).table ∧
      sess.authEnabled = false ∧ sess.sniUsed = "server.example.com" ∧
      sess.viaProxy = false) ∧
    authFromPassword (some "") = false ∧ proxyFromArg (some "") = false :=
  null_optional_args "server.example.com:443" true "chrome" 0 51000
    (initState sampleEntropy) "server.example.com" 443
    (by decide) (by decide) (by decide)

/-- **C5.** The "randomized" profile's template is cached process-wide:
two sessions started with "randomized" between two resets carry an
identical ClientHello template (the lazily generated cached one); after
`udptlspipeResetFingerprint`, the next use generates a fresh template (the
next entropy draw), which differs from the pre-reset template whenever the
fresh draw differs. -/
theorem randomized_template_cached (d1 d2 : String)
    (pw1 pw2 sni1 sni2 : Option String) (sec1 sec2 : Bool)
    (px1 px2 : Option String) (lp1 lp2 bp1 bp2 : Nat) (st : PipeState)
    (h1 h2 : String) (p1 p2 : Nat)
    (hd1 : parseDestination d1 = some (h1, p1))
    (hd2 : parseDestination d2 = some (h2, p2)) :
    ∀ r1 r2,
      udptlspipeStart d1 pw1 sni1 sec1 px1 "randomized" lp1 (.success bp1) st = r1 →
      udptlspipeStart d2 pw2 sni2 sec2 px2 "randomized" lp2 (.success bp2) r1.2 = r2 →
      (∃ sess1 sess2,
        r1.2.table.head? = some (r1.1, sess1) ∧
        r2.2.table.head? = some (r2.1, sess2) ∧
        sess2.clientHelloTemplate = sess1.clientHelloTemplate ∧
        sess1.clientHelloTemplate = (resolveTemplate "randomized" st).1) ∧
      (resolveTemplate "randomized" (udptlspipeResetFingerprint r2.2)).1 =
        r2.2.entropy r2.2.entropyIdx ∧
      (r2.2.entropy r2.2.entropyIdx ≠ (resolveTemplate "randomized" st).1 →
        (resolveTemplate "randomized" (udptlspipeResetFingerprint r2.2)).1 ≠
          (resolveTemplate "randomized" st).1) := by
  intro r1 r2 e1 e2
  have hr : "randomized" ∈ recognizedProfiles := by decide
  subst e1
  subst e2
  have e1' := start_success_eq d1 pw1 sni1 sec1 px1 "randomized" lp1 bp1 st
    h1 p1 hd1 hr
  have hc1 : (udptlspipeStart d1 pw1 sni1 sec1 px1 "randomized" lp1
      (.success bp1) st).2.randomizedCache =
      some ((resolveTemplate "randomized" st).1) := by
    rw [e1']
    exact resolve_randomized_cache st
  have hres2 := resolve_cached hc1
  have e2' := start_success_eq d2 pw2 sni2 sec2 px2 "randomized" lp2 bp2
    ((udptlspipeStart d1 pw1 sni1 sec1 px1 "randomized" lp1 (.success bp1) st).2)
    h2 p2 hd2 hr
  rw [hres2] at e2'
  dsimp only at e2'
  refine ⟨⟨startSession d1 pw1 sni1 sec1 px1 "randomized" h1
      ((resolveTemplate "randomized" st).1) (if lp1 ≠ 0 then lp1 else bp1),
    startSession d2 pw2 sni2 sec2 px2 "randomized" h2
      ((resolveTemplate "randomized" st).1) (if lp2 ≠ 0 then lp2 else bp2),
    ?_, ?_, rfl, rfl⟩, resolve_after_reset _, ?_⟩
  · rw [e1']
    rfl
  · rw [e2']
    rfl
  · intro hne
    rw [resolve_after_reset _]
    exact hne

/-- **C5, witness.** Two concrete sessions started with "randomized" on
the initial state share one template, and after a reset the next template
is the (different) next entropy draw. -/
theorem randomized_template_cached_witness :
    (∃ sess1 sess2,
      (udptlspipeStart "a:1" none none false none "randomized" 0 (.success 5000)
          (initState sampleEntropy)).2.table.head? =
        some ((udptlspipeStart "a:1" none none false none "randomized" 0
          (.success 5000) (initState sampleEntropy)).1, sess1) ∧
      (udptlspipeStart "b:2" none none false none "randomized" 0 (.success 5001)
          (udptlspipeStart "a:1" none none false none "randomized" 0
            (.success 5000) (initState sampleEntropy)).2).2.table.head? =
        some ((udptlspipeStart "b:2" none none false none "randomized" 0
          (.success 5001)
          (udptlspipeStart "a:1" none none false none "randomized" 0
            (.success 5000) (initState sampleEntropy)).2).1, sess2) ∧
      sess2.clientHelloTemplate = sess1.clientHelloTemplate ∧
      sess1.clientHelloTemplate =
        (resolveTemplate "randomized" (initState sampleEntropy)).1) ∧
    (resolveTemplate "randomized" (udptlspipeResetFingerprint
        (udptlspipeStart "b:2" none none false none "randomized" 0 (.success 5001)
          (udptlspipeStart "a:1" none none false none "randomized" 0
            (.success 5000) (initState sampleEntropy)).2).2)).1 =
      (udptlspipeStart "b:2" none none false none "randomized" 0 (.success 5001)
        (udptlspipeStart "a:1" none none false none "randomized" 0
          (.success 5000) (initState sampleEntropy)).2).2.entropy
      (udptlspipeStart "b:2" none none false none "randomized" 0 (.success 5001)
        (udptlspipeStart "a:1" none none false none "randomized" 0
          (.success 5000) (initState sampleEntropy)).2).2.entropyIdx :=
  ⟨(randomized_template_cached "a:1" "b:2" none none none none false false
      none none 0 0 5000 5001 (initState sampleEntropy) "a" "b" 1 2
      (by decide) (by decide) _ _ rfl rfl).1,
   (randomized_template_cached "a:1" "b:2" none none none none false false
      none none 0 0 5000 5001 (initState sampleEntropy) "a" "b" 1 2
      (by decide) (by decide) _ _ rfl rfl).2.1⟩

end UdpTlsPipe
